import Mathlib

/-!
Shallow embedding of `servicenow.py` (gflewis/servicenow.py), a thin client
library for the ServiceNow table REST API, together with theorems settling
the claims about its specification.

Conventions of the embedding:
* Python strings are modelled as `List Nat` of code points where character
  arithmetic matters (date parsing/formatting) and as Lean `String` elsewhere.
* `datetime` instants used by `DateTimeRange` are modelled as `Int` epoch
  seconds in UTC; `DateTime.__eq__/__lt__` on aware datetimes is chronological
  order, and subtraction of aware datetimes yields exact seconds.
* Python exceptions are modelled by the inductive `PyExc`; a function that can
  raise returns `Except PyExc _`.
* JSON values decoded by `response.json()` are modelled by `JVal`.
-/

namespace ServiceNowPy

/-! ## JSON values and Python exceptions -/

/-- A JSON value as decoded by `response.json()`. -/
inductive JVal where
  | null
  | str (s : String)
  | num (n : Int)
  | bool (b : Bool)
  | arr (items : List JVal)
  | obj (fields : List (String × JVal))

/-- Exception classes that `servicenow.py` code paths can raise.
`serviceNowUnauthorized` models `ServiceNowError('Unauthorized\n%s' % json)`
(src line 282) carrying the decoded response body; `serviceNowStatus` models
`ServiceNowError('Status: %s\nHeaders: %s\n%s' % ...)` (src lines 306-307)
carrying status code, headers and decoded body; `valueError`, `typeError`,
`keyError`, `attributeError` and `assertionError` model the built-in Python
exception classes of the same names. -/
inductive PyExc where
  | serviceNowUnauthorized (body : JVal)
  | serviceNowStatus (status : Nat) (headers : List (String × String)) (body : JVal)
  | serviceNowError (msg : String)
  | valueError (msg : String)
  | typeError (msg : String)
  | keyError (key : String)
  | attributeError (name : String)
  | assertionError (msg : String)

/-! ## DateTimeRange arithmetic (src lines 90-135)

A `DateTimeRange` is a pair of aware UTC datetimes; we model each endpoint as
`Int` epoch seconds, so `max`/`min` is Python's chronological comparison and
`(earliest_end - latest_start).total_seconds()` is plain `Int` subtraction. -/

/-- `DateTimeRange.overlapSeconds` (src lines 121-132): latest start, earliest
end; zero when `latest_start >= earliest_end`, else the difference in seconds. -/
def overlapSeconds (r other : Int × Int) : Int :=
  let latest_start := max r.1 other.1
  let earliest_end := min r.2 other.2
  if latest_start ≥ earliest_end then 0 else earliest_end - latest_start

/-- `DateTimeRange.overlapsWith` (src lines 134-135). -/
def overlapsWith (r other : Int × Int) : Bool :=
  overlapSeconds r other > 0

/-- `DateTimeRange.fromDate` (src lines 109-119): `t0` is midnight of the day
in the chosen zone converted to UTC, `t1 = t0 + (24*60*60 - 1)` seconds.
`dayMidnightUTC` is the epoch second of UTC midnight of the given calendar
day; `tzOffset` is the local zone's UTC offset (in seconds) that
`TZ_LOCAL.localize(...).astimezone(TZ_UTC)` applies at that local midnight,
so the `local=True` branch yields `dayMidnightUTC - tzOffset`. -/
def fromDate (dayMidnightUTC : Int) (tzOffset : Int) (loc : Bool) : Int × Int :=
  let t0 : Int := if loc then dayMidnightUTC - tzOffset else dayMidnightUTC
  let almost24hours : Int := 24 * 60 * 60 - 1
  let t1 : Int := t0 + almost24hours
  (t0, t1)

/-! ## DateTime string parsing and formatting (src lines 17-18, 26-79)

`DATETIME_FORMAT = '%Y-%m-%d %H:%M:%S'`.  We model the Python string as its
list of code points (`List Nat`): 45 = `'-'`, 32 = `' '`, 58 = `':'`, and
48..57 are the ASCII digits.  `datetime.strptime(arg, DATETIME_FORMAT)` on a
string in the exact zero-padded format is modelled by `parseDateTime`;
`strftime(DATETIME_FORMAT)` by `formatDateTime` (`%Y`/`%m`/`%d`/`%H`/`%M`/`%S`
are zero-padded decimal fields of widths 4, 2, 2, 2, 2, 2). -/

/-- The six broken-down fields of a `datetime.datetime` as stored by
`DateTime.__new__` (src lines 69-70); the value is always tagged UTC. -/
structure SnDateTime where
  year : Nat
  month : Nat
  day : Nat
  hour : Nat
  minute : Nat
  second : Nat
deriving DecidableEq, Repr

/-- Leap-year rule of the proleptic Gregorian calendar used by `datetime`. -/
def isLeapYear (y : Nat) : Bool :=
  y % 4 = 0 && (y % 100 ≠ 0 || y % 400 = 0)

/-- Days in a month, as `datetime` validates them. -/
def daysInMonth (y m : Nat) : Nat :=
  if m = 2 then (if isLeapYear y then 29 else 28)
  else if m = 4 ∨ m = 6 ∨ m = 9 ∨ m = 11 then 30
  else 31

/-- The range checks `datetime.datetime` performs on its fields
(`MINYEAR = 1`, `MAXYEAR = 9999`). -/
def isValidDateTime (t : SnDateTime) : Bool :=
  1 ≤ t.year && t.year ≤ 9999 &&
  1 ≤ t.month && t.month ≤ 12 &&
  1 ≤ t.day && t.day ≤ daysInMonth t.year t.month &&
  t.hour ≤ 23 && t.minute ≤ 59 && t.second ≤ 59

/-- Read one ASCII digit from the front of the code-point list. -/
def readDigit : List Nat → Option (Nat × List Nat)
  | c :: rest => if 48 ≤ c ∧ c ≤ 57 then some (c - 48, rest) else none
  | [] => none

/-- Read a zero-padded two-digit decimal field. -/
def read2 (l : List Nat) : Option (Nat × List Nat) := do
  let (a, l) ← readDigit l
  let (b, l) ← readDigit l
  some (10 * a + b, l)

/-- Read a zero-padded four-digit decimal field (`%Y`). -/
def read4 (l : List Nat) : Option (Nat × List Nat) := do
  let (a, l) ← read2 l
  let (b, l) ← read2 l
  some (100 * a + b, l)

/-- Consume one expected literal code point. -/
def expectChar (c : Nat) : List Nat → Option (List Nat)
  | x :: rest => if x = c then some rest else none
  | [] => none

/-- `datetime.strptime(s, '%Y-%m-%d %H:%M:%S')` restricted to the exact
zero-padded ASCII format (the domain of claim C3): four digits, `-`, two
digits, `-`, two digits, space, two digits, `:`, two digits, `:`, two digits,
with `datetime`'s field-range validation; `none` models the `ValueError`
raised on a mismatched string or out-of-range field. -/
def parseDateTime (l : List Nat) : Option SnDateTime := do
  let (y, l) ← read4 l
  let l ← expectChar 45 l
  let (mo, l) ← read2 l
  let l ← expectChar 45 l
  let (da, l) ← read2 l
  let l ← expectChar 32 l
  let (h, l) ← read2 l
  let l ← expectChar 58 l
  let (mi, l) ← read2 l
  let l ← expectChar 58 l
  let (s, l) ← read2 l
  match l with
  | [] =>
    let t : SnDateTime := ⟨y, mo, da, h, mi, s⟩
    if isValidDateTime t then some t else none
  | _ => none

/-- Zero-padded two-digit decimal rendering (`%m`, `%d`, `%H`, `%M`, `%S`). -/
def pad2 (n : Nat) : List Nat :=
  [48 + n / 10, 48 + n % 10]

/-- Zero-padded four-digit decimal rendering (`%Y`). -/
def pad4 (n : Nat) : List Nat :=
  pad2 (n / 100) ++ pad2 (n % 100)

/-- `strftime('%Y-%m-%d %H:%M:%S')` on a (UTC) `datetime` (src line 76). -/
def formatDateTime (t : SnDateTime) : List Nat :=
  pad4 t.year ++ 45 :: pad2 t.month ++ 45 :: pad2 t.day ++
    32 :: pad2 t.hour ++ 58 :: pad2 t.minute ++ 58 :: pad2 t.second

/-- Code points of a Lean string literal, for concrete instances. -/
def strCodes (s : String) : List Nat :=
  s.data.map Char.toNat

/-! ## DateTime.__new__ and the rendering methods (src lines 36-88) -/

/-- The argument accepted by `DateTime.__new__`: a `str` (its code points), a
`datetime.datetime` (already-broken-down fields, plus whether it is naive,
i.e. `tzinfo is None`), a `datetime.date`, or a value of any other type
(carrying `str(type(arg))` for the error message). -/
inductive PyArg where
  | ofString (codes : List Nat)
  | ofDatetime (naive : Bool) (v : SnDateTime)
  | ofDate (y m d : Nat)
  | ofOther (typeName : String)
deriving DecidableEq, Repr

/-- `DateTime.__new__` (src lines 36-70).  The timezone conversions done by
`pytz` are abstracted as parameters: `localizeToUTC` models
`TZ_LOCAL.localize(naive).astimezone(TZ_UTC)`, and `awareToUTC` models
`aware.astimezone(TZ_UTC)`.  A string of length 10 gets `' 00:00:00'`
appended (src lines 39-41); a wrong argument type raises
`ValueError('Invalid argument type: ' + str(type(arg)))` (src line 68). -/
def DateTimeNew (localizeToUTC : SnDateTime → SnDateTime)
    (awareToUTC : SnDateTime → SnDateTime)
    (arg : PyArg) (loc : Bool) : Except PyExc SnDateTime :=
  match arg with
  | .ofString codes =>
    let codes := if codes.length = 10 then codes ++ strCodes " 00:00:00" else codes
    match parseDateTime codes with
    | some dt => .ok (if loc then localizeToUTC dt else dt)
    | none => .error (.valueError "time data does not match format")
  | .ofDatetime naive v =>
    if naive then .ok (if loc then localizeToUTC v else v)
    else .ok (awareToUTC v)
  | .ofDate y m d =>
    let midnight : SnDateTime := ⟨y, m, d, 0, 0, 0⟩
    .ok (if loc then localizeToUTC midnight else midnight)
  | .ofOther typeName =>
    .error (.valueError ("Invalid argument type: " ++ typeName))

/-- `DateTime.asUTC` (src lines 75-76): the stored value is already UTC, so
`astimezone(TZ_UTC)` is the identity and only `strftime` remains. -/
def asUTC (t : SnDateTime) : List Nat :=
  formatDateTime t

/-! ## Parsing/formatting round-trip lemmas -/

theorem readDigit_sound {l rest : List Nat} {n : Nat}
    (h : readDigit l = some (n, rest)) : n ≤ 9 ∧ l = (48 + n) :: rest := by
  match l with
  | [] => simp [readDigit] at h
  | c :: l' =>
    simp only [readDigit] at h
    split at h
    · rename_i hc
      simp only [Option.some.injEq, Prod.mk.injEq] at h
      obtain ⟨rfl, rfl⟩ := h
      refine ⟨by omega, ?_⟩
      congr 1
      omega
    · exact absurd h (by simp)

theorem read2_sound {l rest : List Nat} {n : Nat}
    (h : read2 l = some (n, rest)) : n ≤ 99 ∧ l = pad2 n ++ rest := by
  simp only [read2, bind, Option.bind] at h
  cases h1 : readDigit l with
  | none => rw [h1] at h; simp at h
  | some p1 =>
    rw [h1] at h
    obtain ⟨a, l1⟩ := p1
    cases h2 : readDigit l1 with
    | none => simp only [h2] at h; simp at h
    | some p2 =>
      obtain ⟨b, l2⟩ := p2
      simp only [h2, Option.some.injEq, Prod.mk.injEq] at h
      obtain ⟨rfl, rfl⟩ := h
      obtain ⟨ha, rfl⟩ := readDigit_sound h1
      obtain ⟨hb, rfl⟩ := readDigit_sound h2
      refine ⟨by omega, ?_⟩
      have e1 : (10 * a + b) / 10 = a := by omega
      have e2 : (10 * a + b) % 10 = b := by omega
      simp [pad2, e1, e2]

theorem read4_sound {l rest : List Nat} {n : Nat}
    (h : read4 l = some (n, rest)) : n ≤ 9999 ∧ l = pad4 n ++ rest := by
  simp only [read4, bind, Option.bind] at h
  cases h1 : read2 l with
  | none => rw [h1] at h; simp at h
  | some p1 =>
    rw [h1] at h
    obtain ⟨a, l1⟩ := p1
    cases h2 : read2 l1 with
    | none => simp only [h2] at h; simp at h
    | some p2 =>
      obtain ⟨b, l2⟩ := p2
      simp only [h2, Option.some.injEq, Prod.mk.injEq] at h
      obtain ⟨rfl, rfl⟩ := h
      obtain ⟨ha, rfl⟩ := read2_sound h1
      obtain ⟨hb, rfl⟩ := read2_sound h2
      have e1 : (100 * a + b) / 100 = a := by omega
      have e2 : (100 * a + b) % 100 = b := by omega
      constructor
      · omega
      · simp [pad4, e1, e2]

theorem expectChar_sound {c : Nat} {l rest : List Nat}
    (h : expectChar c l = some rest) : l = c :: rest := by
  match l with
  | [] => simp [expectChar] at h
  | x :: l' =>
    simp only [expectChar] at h
    split at h
    · rename_i hxc
      simp only [Option.some.injEq] at h
      subst h
      rw [hxc]
    · exact absurd h (by simp)

/-- Core round-trip: a code-point list accepted by `parseDateTime` is exactly
the `formatDateTime` rendering of the parsed value. -/
theorem parseDateTime_format {l : List Nat} {t : SnDateTime}
    (h : parseDateTime l = some t) : formatDateTime t = l := by
  simp only [parseDateTime, bind, Option.bind] at h
  cases h1 : read4 l with
  | none => rw [h1] at h; simp at h
  | some p1 =>
  rw [h1] at h
  obtain ⟨y, l1⟩ := p1
  cases h2 : expectChar 45 l1 with
  | none => simp only [h2] at h; simp at h
  | some l2 =>
  simp only [h2] at h
  cases h3 : read2 l2 with
  | none => rw [h3] at h; simp at h
  | some p3 =>
  rw [h3] at h
  obtain ⟨mo, l3⟩ := p3
  cases h4 : expectChar 45 l3 with
  | none => simp only [h4] at h; simp at h
  | some l4 =>
  simp only [h4] at h
  cases h5 : read2 l4 with
  | none => rw [h5] at h; simp at h
  | some p5 =>
  rw [h5] at h
  obtain ⟨da, l5⟩ := p5
  cases h6 : expectChar 32 l5 with
  | none => simp only [h6] at h; simp at h
  | some l6 =>
  simp only [h6] at h
  cases h7 : read2 l6 with
  | none => rw [h7] at h; simp at h
  | some p7 =>
  rw [h7] at h
  obtain ⟨ho, l7⟩ := p7
  cases h8 : expectChar 58 l7 with
  | none => simp only [h8] at h; simp at h
  | some l8 =>
  simp only [h8] at h
  cases h9 : read2 l8 with
  | none => rw [h9] at h; simp at h
  | some p9 =>
  rw [h9] at h
  obtain ⟨mi, l9⟩ := p9
  cases h10 : expectChar 58 l9 with
  | none => simp only [h10] at h; simp at h
  | some l10 =>
  simp only [h10] at h
  cases h11 : read2 l10 with
  | none => rw [h11] at h; simp at h
  | some p11 =>
  rw [h11] at h
  obtain ⟨se, l11⟩ := p11
  match l11 with
  | _ :: _ => simp at h
  | [] =>
  simp only [] at h
  split at h
  · simp only [Option.some.injEq] at h
    subst h
    obtain ⟨_, rfl⟩ := read4_sound h1
    have e2 := expectChar_sound h2
    obtain ⟨_, hl2⟩ := read2_sound h3
    have e4 := expectChar_sound h4
    obtain ⟨_, hl4⟩ := read2_sound h5
    have e6 := expectChar_sound h6
    obtain ⟨_, hl6⟩ := read2_sound h7
    have e8 := expectChar_sound h8
    obtain ⟨_, hl8⟩ := read2_sound h9
    have e10 := expectChar_sound h10
    obtain ⟨_, hl10⟩ := read2_sound h11
    subst e2 hl2 e4 hl4 e6 hl6 e8 hl8 e10 hl10
    simp [formatDateTime]
  · exact absurd h (by simp)

/-! ## DateTimeRange type checking (src lines 95-98) -/

/-- The argument passed to `DateTimeRange.__new__` for either element: a
`datetime.datetime` (modelled as epoch seconds) or a value of another type. -/
inductive RangeArg where
  | dt (v : Int)
  | other (typeName : String)
deriving DecidableEq, Repr

/-- `DateTimeRange.__new__` (src lines 95-98): checks
`isinstance(dt1, datetime.datetime)` then `isinstance(dt2, ...)`, raising
`ValueError('dt1 not datetime')` / `ValueError('dt2 not datetime')` on a
failure, otherwise building the pair. -/
def DateTimeRangeNew (dt1 dt2 : RangeArg) : Except PyExc (Int × Int) :=
  match dt1 with
  | .other _ => .error (.valueError "dt1 not datetime")
  | .dt v1 =>
    match dt2 with
    | .other _ => .error (.valueError "dt2 not datetime")
    | .dt v2 => .ok (v1, v2)

/-- Discriminator: does a result model a raised Python `TypeError`? -/
def raisesTypeError : Except PyExc (Int × Int) → Bool
  | .error (.typeError _) => true
  | _ => false

/-- Discriminator: does a result model a raised Python `TypeError`?
(`DateTime` result type.) -/
def raisesTypeErrorDT : Except PyExc SnDateTime → Bool
  | .error (.typeError _) => true
  | _ => false

/-! ## Theorem for C3 -/

/-- C3: for every string in the exact 19-character `YYYY-MM-DD HH:MM:SS`
format denoting a valid calendar date-time, constructing a `DateTime` from it
with `local=False` and rendering it with `asUTC()` returns the string
unchanged.  (`DateTimeNew ... = .ok t` states that the string parsed, i.e. it
is in the exact format with in-range fields; with `local=False` no timezone
shift is applied, so the quantified `pytz` conversion functions are inert.) -/
theorem fromString_asUTC_roundtrip
    (localizeToUTC awareToUTC : SnDateTime → SnDateTime)
    (codes : List Nat) (t : SnDateTime)
    (hlen : codes.length = 19)
    (h : DateTimeNew localizeToUTC awareToUTC (.ofString codes) false = .ok t) :
    asUTC t = codes := by
  simp only [DateTimeNew] at h
  rw [if_neg (by omega)] at h
  cases hp : parseDateTime codes with
  | none => rw [hp] at h; exact absurd h (by simp)
  | some dt =>
    rw [hp] at h
    simp only [Bool.false_eq_true, if_false, Except.ok.injEq] at h
    subst h
    exact parseDateTime_format hp

/-- C3 witness: the concrete string `'2015-09-15 13:45:00'` (src line 34)
parses with `local=False` and renders back to itself. -/
theorem fromString_asUTC_roundtrip_witness :
    asUTC ⟨2015, 9, 15, 13, 45, 0⟩ = strCodes "2015-09-15 13:45:00" :=
  fromString_asUTC_roundtrip id id (strCodes "2015-09-15 13:45:00")
    ⟨2015, 9, 15, 13, 45, 0⟩ (by decide) rfl

/-! ## Theorems for C9 -/

/-- C9 counterexample: passing an `int` to `DateTime.__new__` or as the first
element of `DateTimeRange.__new__` raises `ValueError`, not `TypeError` as the
claim states: `raise ValueError('Invalid argument type: ...')` (src line 68)
and `raise ValueError('dt1 not datetime')` (src line 96). -/
theorem wrong_type_not_typeError :
    raisesTypeErrorDT (DateTimeNew id id (.ofOther "<class 'int'>") false) = false ∧
    DateTimeNew id id (.ofOther "<class 'int'>") false =
      .error (.valueError "Invalid argument type: <class 'int'>") ∧
    raisesTypeError (DateTimeRangeNew (.other "<class 'int'>") (.dt 0)) = false ∧
    DateTimeRangeNew (.other "<class 'int'>") (.dt 0) =
      .error (.valueError "dt1 not datetime") :=
  ⟨rfl, rfl, rfl, rfl⟩

/-- C9 amended: passing an argument of a type that is neither `str`,
`datetime.datetime` nor `datetime.date` to `DateTime.__new__`, or a
non-datetime element to `DateTimeRange.__new__`, raises `ValueError` (with
the messages of src lines 68, 96, 97), not `TypeError`. -/
theorem wrong_type_raises_valueError
    (localizeToUTC awareToUTC : SnDateTime → SnDateTime) (loc : Bool)
    (tname : String) (b : RangeArg) (v : Int) :
    DateTimeNew localizeToUTC awareToUTC (.ofOther tname) loc =
      .error (.valueError ("Invalid argument type: " ++ tname)) ∧
    DateTimeRangeNew (.other tname) b = .error (.valueError "dt1 not datetime") ∧
    DateTimeRangeNew (.dt v) (.other tname) =
      .error (.valueError "dt2 not datetime") :=
  ⟨rfl, rfl, rfl⟩

/-! ## HTTP responses and JSON subscripting -/

/-- The parts of a `requests` response the code inspects: `status_code`,
`headers`, and the decoded JSON body returned by `response.json()`. -/
structure HttpResponse where
  status_code : Nat
  headers : List (String × String)
  body : JVal

/-- Python `d[key]` on a decoded JSON value: an object looks the key up,
raising `KeyError` when absent; subscripting a non-object value with a
string raises `TypeError`. -/
def jindex (v : JVal) (key : String) : Except PyExc JVal :=
  match v with
  | .obj fields =>
    match fields.lookup key with
    | some x => .ok x
    | none => .error (.keyError key)
  | _ => .error (.typeError "value is not subscriptable")

/-! ## ServiceNow base-URL normalization (src lines 161-168)

Python strings are modelled as their character lists. -/

/-- `ServiceNow.__init__` base-URL computation (src lines 161-168):
`base = inst if inst.startswith('https://') else 'https://' + inst`;
`if inst.find('.') < 0: base += '.service-now.com'`;
`if base.endswith('/'): base = base[0:-1]`. -/
def normalizeInstance (inst : List Char) : List Char :=
  let base := if "https://".data.isPrefixOf inst then inst
              else "https://".data ++ inst
  let base := if inst.contains '.' then base
              else base ++ ".service-now.com".data
  if base.getLast? = some '/' then base.dropLast else base

/-! ## Table.get (src lines 268-286) -/

/-- The query parameters `Table.get` sends (src lines 275-279). -/
def Table.getParams (refLinks : Bool) : List (String × String) :=
  if refLinks then [("sysparm_exclude_reference_link", "false")]
  else [("sysparm_exclude_reference_link", "true")]

/-- `Table.get` status handling (src lines 280-286), as a function of the
response the server returned: a 401 raises `ServiceNowError` carrying the
decoded body, a 404 returns `None`, anything else returns
`response.json()['result']`. -/
def Table.get (resp : HttpResponse) : Except PyExc (Option JVal) :=
  if resp.status_code = 401 then .error (.serviceNowUnauthorized resp.body)
  else if resp.status_code = 404 then .ok none
  else (jindex resp.body "result").map some

/-! ## Table.insert / update / delete (src lines 288-326) -/

/-- A `fields` argument as accepted by `Table.insert` and `Query.setFields`:
absent (`None`), a single comma-separated string, or a list of field names. -/
inductive FieldsArg where
  | noFields
  | str (s : String)
  | list (l : List String)
deriving DecidableEq, Repr

/-- Python truthiness of a `fields` argument (`if (fields):`): `None`, the
empty string and the empty list are falsy. -/
def FieldsArg.truthy : FieldsArg → Bool
  | .noFields => false
  | .str s => s != ""
  | .list l => !l.isEmpty

/-- `','.join(fields)`. -/
def joinComma (l : List String) : String :=
  String.intercalate "," l

/-- `Table.insert` (src lines 288-312): when the response status lies outside
200..299 it raises `ServiceNowError` carrying status, headers and decoded
body; otherwise it returns `result` in full when `fields` was truthy, else
`result['sys_id']`. -/
def Table.insert (fields : FieldsArg) (resp : HttpResponse) : Except PyExc JVal :=
  if ¬(200 ≤ resp.status_code ∧ resp.status_code ≤ 299) then
    .error (.serviceNowStatus resp.status_code resp.headers resp.body)
  else do
    let result ← jindex resp.body "result"
    if fields.truthy then .ok result
    else jindex result "sys_id"

/-- The request record `ServiceNow._request` assembles (src lines 214-221). -/
structure SnRequest where
  method : String
  sys_id : Option String
  data : Option JVal

/-- `Table.update` (src lines 314-320): a PUT with the serialized field
values; the response status is never inspected and the method returns
`None`, so no status ever raises. -/
def Table.update (sys_id : String) (fieldvalues : JVal) (_resp : HttpResponse) :
    SnRequest × Except PyExc Unit :=
  (⟨"PUT", some sys_id, some fieldvalues⟩, .ok ())

/-- `Table.delete` (src lines 322-326): a DELETE; the response status is
never inspected and the method returns `None`, so no status ever raises. -/
def Table.delete (sys_id : String) (_resp : HttpResponse) :
    SnRequest × Except PyExc Unit :=
  (⟨"DELETE", some sys_id, none⟩, .ok ())

/-! ## Table.getChoices (src lines 328-345) -/

/-- A record of the `sys_choice` table as `getChoices` reads it. -/
structure ChoiceRec where
  value : String
  label : String
  inactive : String
deriving DecidableEq, Repr

/-- Python dict assignment `d[k] = v`: overwrite in place when the key
exists (keeping insertion order), else append. -/
def dictInsert (d : List (String × String)) (k v : String) :
    List (String × String) :=
  if d.any (·.1 == k) then d.map (fun p => if p.1 == k then (k, v) else p)
  else d ++ [(k, v)]

/-- `Table.getChoices` (src lines 328-345) as a function of the records the
`sys_choice` query returned.  A record is skipped exactly when
`inactive and rec['inactive']=='true'` (src line 339) — note this *keeps*
inactive records when the flag is `False` and drops them when it is `True`,
the reverse of the function's own docstring (src lines 330-332).  When the
result dict is empty, src line 343 runs `self.session.logLastRequest()`, and
class `ServiceNow` (src lines 156-246) defines no method `logLastRequest`,
so Python raises `AttributeError` there; the `assert` on src line 344 can
therefore never be the failure that fires. -/
def getChoices (inactive : Bool) (recs : List ChoiceRec) :
    Except PyExc (List (String × String)) :=
  let result := recs.foldl
    (fun acc r =>
      if inactive && r.inactive == "true" then acc
      else dictInsert acc r.value r.label) []
  if result.length = 0 then .error (.attributeError "logLastRequest")
  else .ok result

/-! ## Query builder (src lines 347-422) -/

/-- `Query` builder state: the four attributes `run` consumes.  `query`,
`fields` and `limit` are `None` or a string; `exclude_ref_links` is always
the string `'true'` or `'false'` once set. -/
structure Query where
  query : Option String
  fields : Option String
  limit : Option String
  exclude_ref_links : String
deriving DecidableEq, Repr

/-- Python truthiness of a `None`-or-string attribute (`if (self.query):`):
`None` and the empty string are falsy. -/
def truthyOptStr : Option String → Bool
  | none => false
  | some s => s != ""

/-- `Query.setQuery` (src lines 358-364): stores the argument and returns
`self`; the pair is (updated builder, returned object), equal because the
method returns `self`. -/
def setQuery (q : Query) (query : Option String) : Query × Query :=
  let q := { q with query := query }
  (q, q)

/-- `Query.setFields` (src lines 366-378): a truthy string is stored as-is,
a truthy list is comma-joined, anything falsy stores `None`; returns `self`. -/
def setFields (q : Query) (fields : FieldsArg) : Query × Query :=
  let f : Option String :=
    match fields with
    | .str s => if s = "" then none else some s
    | .list l => if l.isEmpty then none else some (joinComma l)
    | .noFields => none
  let q := { q with fields := f }
  (q, q)

/-- `Query.setLimit` (src lines 380-388): a truthy limit is stored as
`str(limit)`, a falsy one (`None` or `0`) stores `None`; returns `self`. -/
def setLimit (q : Query) (limit : Option Int) : Query × Query :=
  let lim : Option String :=
    match limit with
    | some n => if n = 0 then none else some (toString n)
    | none => none
  let q := { q with limit := lim }
  (q, q)

/-- `Query.setRefLinks` (src lines 390-399): a truthy `refLinks` stores
`exclude_ref_links = 'false'`, a falsy one (`None` or `False`) stores
`'true'`; returns `self`. -/
def setRefLinks (q : Query) (refLinks : Option Bool) : Query × Query :=
  let q := { q with exclude_ref_links := if refLinks = some true then "false" else "true" }
  (q, q)

/-- `Query.__init__` (src lines 349-356): runs the four setters in order; the
initial record stands for the fresh Python object, every field of which the
setters overwrite. -/
def queryInit (query : Option String) (fields : FieldsArg) (limit : Option Int)
    (refLinks : Option Bool) : Query :=
  let q : Query := ⟨none, none, none, "true"⟩
  let q := (setQuery q query).2
  let q := (setFields q fields).2
  let q := (setLimit q limit).2
  (setRefLinks q refLinks).2

/-- The `params` dict `Query.run` assembles (src lines 408-416), in the
order the code adds the keys; each `if (self.x):` test is Python
truthiness. -/
def runParams (q : Query) : List (String × String) :=
  (if truthyOptStr q.limit then [("sysparm_limit", q.limit.getD "")] else []) ++
  (if truthyOptStr q.fields then [("sysparm_fields", q.fields.getD "")] else []) ++
  (if truthyOptStr q.query then [("sysparm_query", q.query.getD "")] else []) ++
  (if q.exclude_ref_links != "" then
    [("sysparm_exclude_reference_link", q.exclude_ref_links)] else [])

/-- Does the assembled parameter list carry the given key? -/
def hasParam (ps : List (String × String)) (k : String) : Bool :=
  ps.any (·.1 == k)

/-- `Query.run` status handling (src lines 417-422), as a function of the
response the GET returned: a non-200 status yields `list()` (the empty
sequence), a 200 yields `response.json()['result']`. -/
def Query.run (resp : HttpResponse) : Except PyExc JVal :=
  if resp.status_code ≠ 200 then .ok (.arr [])
  else jindex resp.body "result"

/-! ## Theorems for C2 and C4 -/

/-- C2: for any two ranges `A = (s1, e1)` and `B = (s2, e2)`,
`overlapSeconds A B = max 0 (min e1 e2 - max s1 s2)`; it is never negative
(so disjoint or merely touching ranges yield `0`), and it is symmetric. -/
theorem overlapSeconds_formula_symm (A B : Int × Int) :
    overlapSeconds A B = max 0 (min A.2 B.2 - max A.1 B.1) ∧
    0 ≤ overlapSeconds A B ∧
    overlapSeconds A B = overlapSeconds B A := by
  unfold overlapSeconds
  refine ⟨?_, ?_, ?_⟩ <;> simp only [ge_iff_le] <;> split <;> omega

/-- C4: for every calendar day and either value of the `local` flag (and any
timezone offset the zone database supplies), the range built by
`DateTimeRange.fromDate` satisfies `end - start = 23:59:59 = 86399` seconds,
and its start is midnight of the day in the chosen zone converted to UTC. -/
theorem fromDate_span (dayMidnightUTC tzOffset : Int) (loc : Bool) :
    (fromDate dayMidnightUTC tzOffset loc).2 -
      (fromDate dayMidnightUTC tzOffset loc).1 = 86399 ∧
    (fromDate dayMidnightUTC tzOffset loc).1 =
      (if loc then dayMidnightUTC - tzOffset else dayMidnightUTC) := by
  cases loc <;> simp [fromDate]

/-! ## Theorems for C1 and C10 (getChoices) -/

/-- C1 (code bug): with the default `inactive=False`, `getChoices` *includes*
the record whose `inactive` field is `'true'`, and with `inactive=True` it
*excludes* it — exactly the reverse of the claim and of the function's own
docstring (src lines 330-332): the skip condition on src line 339 is
`if inactive and rec['inactive']=='true'`. -/
theorem getChoices_filter_inverted :
    getChoices false [⟨"a", "A", "true"⟩, ⟨"b", "B", "false"⟩] =
      .ok [("a", "A"), ("b", "B")] ∧
    getChoices true [⟨"a", "A", "true"⟩, ⟨"b", "B", "false"⟩] =
      .ok [("b", "B")] :=
  ⟨rfl, rfl⟩

/-- Discriminator: does a `getChoices` result model a raised Python
`AssertionError`? -/
def raisesAssertionError : Except PyExc (List (String × String)) → Bool
  | .error (.assertionError _) => true
  | _ => false

/-- C10 (code bug): when the choice query returns no qualifying records the
call does fail rather than return the empty mapping, but with
`AttributeError` — src line 343 calls `self.session.logLastRequest()` and
class `ServiceNow` defines no such method — not with the `AssertionError`
of the `assert` on src line 344, which is never reached with an empty
result. -/
theorem getChoices_empty_raises_attributeError :
    getChoices false [] = .error (.attributeError "logLastRequest") ∧
    raisesAssertionError (getChoices false []) = false :=
  ⟨rfl, rfl⟩

/-! ## Theorems for C5 (Query builder setters) -/

/-- C5 counterexample: for the builder made with every argument `None`
(`queryInit none .noFields none none`), `run`'s parameter dict is *not*
missing the parameter corresponding to `setRefLinks`: it contains
`sysparm_exclude_reference_link = 'true'`, because `setRefLinks(None)`
stores the truthy string `'true'` and src lines 415-416 always add it. -/
theorem setRefLinks_none_param_not_omitted :
    runParams (queryInit none .noFields none none) =
      [("sysparm_exclude_reference_link", "true")] ∧
    hasParam (runParams (queryInit none .noFields none none))
      "sysparm_exclude_reference_link" = true :=
  ⟨rfl, rfl⟩

/-- C5 amended: each of the four setters returns the builder itself (the
returned object equals the updated builder), and for `setQuery`, `setFields`
and `setLimit` a `None` (or otherwise falsy) argument means the
corresponding parameter is omitted from the request `run()` issues; for
`setRefLinks`, however, a `None`/`False` argument stores
`exclude_ref_links = 'true'` and `sysparm_exclude_reference_link` is always
present in the request parameters. -/
theorem setters_return_self_and_none_omits (q : Query) (a : Option String)
    (f : FieldsArg) (n : Option Int) (r : Option Bool) :
    (setQuery q a).2 = (setQuery q a).1 ∧
    (setFields q f).2 = (setFields q f).1 ∧
    (setLimit q n).2 = (setLimit q n).1 ∧
    (setRefLinks q r).2 = (setRefLinks q r).1 ∧
    (setQuery q none).1.query = none ∧
    (setFields q .noFields).1.fields = none ∧
    (setLimit q none).1.limit = none ∧
    (q.query = none → hasParam (runParams q) "sysparm_query" = false) ∧
    (q.fields = none → hasParam (runParams q) "sysparm_fields" = false) ∧
    (q.limit = none → hasParam (runParams q) "sysparm_limit" = false) ∧
    (setRefLinks q none).1.exclude_ref_links = "true" ∧
    hasParam (runParams (setRefLinks q none).1)
      "sysparm_exclude_reference_link" = true := by
  refine ⟨rfl, rfl, rfl, rfl, rfl, rfl, rfl, ?_, ?_, ?_, rfl, ?_⟩
  · intro h
    simp only [runParams, hasParam, h, truthyOptStr]
    split <;> split <;> split <;> simp_all
  · intro h
    simp only [runParams, hasParam, h, truthyOptStr]
    split <;> split <;> split <;> simp_all
  · intro h
    simp only [runParams, hasParam, h, truthyOptStr]
    split <;> split <;> split <;> simp_all
  · simp only [runParams, hasParam, setRefLinks]
    split <;> split <;> split <;> simp_all

/-- C5 witness: for the all-`None` builder the amended theorem instantiates
to: no `sysparm_query`, no `sysparm_fields`, no `sysparm_limit`, and
`sysparm_exclude_reference_link` present. -/
theorem setters_none_witness :
    hasParam (runParams (queryInit none .noFields none none))
      "sysparm_query" = false ∧
    hasParam (runParams (queryInit none .noFields none none))
      "sysparm_fields" = false ∧
    hasParam (runParams (queryInit none .noFields none none))
      "sysparm_limit" = false := by
  have h := setters_return_self_and_none_omits
    (queryInit none .noFields none none) none .noFields none none
  exact ⟨h.2.2.2.2.2.2.2.1 rfl, h.2.2.2.2.2.2.2.2.1 rfl,
    h.2.2.2.2.2.2.2.2.2.1 rfl⟩

/-! ## Theorems for C6 (Table.get) -/

/-- C6: `Table.get` turns a 404 response into `None`, raises
`ServiceNowError` carrying the decoded response body on a 401, and on any
other status returns the `'result'` field of the decoded JSON body. -/
theorem table_get_status (resp : HttpResponse) (v : JVal) :
    (resp.status_code = 404 → Table.get resp = .ok none) ∧
    (resp.status_code = 401 →
      Table.get resp = .error (.serviceNowUnauthorized resp.body)) ∧
    (resp.status_code ≠ 404 → resp.status_code ≠ 401 →
      jindex resp.body "result" = .ok v → Table.get resp = .ok (some v)) := by
  refine ⟨?_, ?_, ?_⟩
  · intro h
    simp [Table.get, h]
  · intro h
    simp [Table.get, h]
  · intro h404 h401 hres
    simp [Table.get, h404, h401, hres, Except.map]

/-- C6 witness: concrete responses with statuses 404, 401 and 200. -/
theorem table_get_status_witness :
    Table.get ⟨404, [], .obj []⟩ = .ok none ∧
    Table.get ⟨401, [], .obj [("error", .str "denied")]⟩ =
      .error (.serviceNowUnauthorized (.obj [("error", .str "denied")])) ∧
    Table.get ⟨200, [], .obj [("result", .str "rec")]⟩ =
      .ok (some (.str "rec")) := by
  refine ⟨(table_get_status ⟨404, [], .obj []⟩ .null).1 rfl,
    (table_get_status ⟨401, [], .obj [("error", .str "denied")]⟩ .null).2.1 rfl,
    (table_get_status ⟨200, [], .obj [("result", .str "rec")]⟩
      (.str "rec")).2.2 (by decide) (by decide) rfl⟩

/-! ## Theorems for C7 (error-policy asymmetries) -/

/-- C7: `Query.run` returns the empty sequence on any non-200 status and the
decoded record list on 200; `Table.update` and `Table.delete` issue their
request and return `None` whatever the response status (they never raise);
`Table.insert` raises `ServiceNowError` (carrying status, headers and body)
on any status outside 200..299. -/
theorem error_policy_asymmetries (resp : HttpResponse) (v : JVal)
    (sid : String) (fv : JVal) (f : FieldsArg) :
    (resp.status_code ≠ 200 → Query.run resp = .ok (.arr [])) ∧
    (resp.status_code = 200 → jindex resp.body "result" = .ok v →
      Query.run resp = .ok v) ∧
    (Table.update sid fv resp).2 = .ok () ∧
    (Table.delete sid resp).2 = .ok () ∧
    (¬(200 ≤ resp.status_code ∧ resp.status_code ≤ 299) →
      Table.insert f resp =
        .error (.serviceNowStatus resp.status_code resp.headers resp.body)) := by
  refine ⟨?_, ?_, rfl, rfl, ?_⟩
  · intro h
    simp [Query.run, h]
  · intro h hres
    simp [Query.run, h, hres]
  · intro h
    simp [Table.insert, h]

/-- C7 witness: a 500 response makes `run` return the empty list and
`insert` raise, while `update`/`delete` still succeed; a 200 response makes
`run` return the decoded result list. -/
theorem error_policy_asymmetries_witness :
    Query.run ⟨500, [], .obj []⟩ = .ok (.arr []) ∧
    Query.run ⟨200, [], .obj [("result", .arr [.str "r1"])]⟩ =
      .ok (.arr [.str "r1"]) ∧
    (Table.update "id1" (.obj []) ⟨500, [], .obj []⟩).2 = .ok () ∧
    (Table.delete "id1" ⟨500, [], .obj []⟩).2 = .ok () ∧
    Table.insert .noFields ⟨500, [], .obj []⟩ =
      .error (.serviceNowStatus 500 [] (.obj [])) := by
  have h1 := error_policy_asymmetries ⟨500, [], .obj []⟩ .null "id1" (.obj []) .noFields
  have h2 := error_policy_asymmetries ⟨200, [], .obj [("result", .arr [.str "r1"])]⟩
    (.arr [.str "r1"]) "id1" (.obj []) .noFields
  exact ⟨h1.1 (by decide), h2.2.1 rfl rfl, h1.2.2.1, h1.2.2.2.1,
    h1.2.2.2.2 (by decide)⟩

/-! ## Theorems for C8 (base-URL normalization) -/

/-- C8: the two scenarios of the claim, and the general shape: the
`.service-now.com` suffix is appended exactly when the instance string has
no dot, `https://` is prepended exactly when the instance string does not
already start with it, and one trailing slash is stripped at the end. -/
theorem baseurl_normalization :
    normalizeInstance "myinstance".data =
      "https://myinstance.service-now.com".data ∧
    normalizeInstance "foo.example.com".data =
      "https://foo.example.com".data ∧
    (∀ inst : List Char, inst.contains '.' = false →
      "https://".data.isPrefixOf inst = false →
      normalizeInstance inst =
        "https://".data ++ inst ++ ".service-now.com".data) ∧
    (∀ inst : List Char, inst.contains '.' = true →
      "https://".data.isPrefixOf inst = true → inst.getLast? ≠ some '/' →
      normalizeInstance inst = inst) ∧
    (∀ inst : List Char, inst.contains '.' = true →
      "https://".data.isPrefixOf inst = true → inst.getLast? = some '/' →
      normalizeInstance inst = inst.dropLast) ∧
    (∀ inst : List Char, inst.contains '.' = true →
      "https://".data.isPrefixOf inst = false → inst.getLast? ≠ some '/' →
      normalizeInstance inst = "https://".data ++ inst) := by
  refine ⟨by decide, by decide, ?_, ?_, ?_, ?_⟩
  · intro inst h1 h2
    have hm : (("https://".data ++ inst) ++ ".service-now.com".data).getLast? =
        some 'm' := by
      rw [List.getLast?_append_of_ne_nil _ (by decide)]
      decide
    simp only [normalizeInstance, h1, h2, Bool.false_eq_true, if_false]
    rw [if_neg (by rw [hm]; decide), List.append_assoc]
  · intro inst h1 h2 h3
    simp only [normalizeInstance, h1, h2, if_true]
    rw [if_neg h3]
  · intro inst h1 h2 h3
    simp only [normalizeInstance, h1, h2, if_true]
    rw [if_pos h3]
  · intro inst h1 h2 h3
    have hne : inst ≠ [] := by
      intro he
      rw [he] at h1
      simp at h1
    have hl : ("https://".data ++ inst).getLast? = inst.getLast? :=
      List.getLast?_append_of_ne_nil _ hne
    simp only [normalizeInstance, h1, h2, Bool.false_eq_true, if_false, if_true]
    rw [if_neg (by rw [hl]; exact h3)]

/-- C8 witness: concrete instances exercising the three conditional clauses:
`'myhost'` (no scheme, no dot), `'https://a.b'` (scheme and dot, unchanged)
and `'https://a.b/'` (trailing slash stripped). -/
theorem baseurl_normalization_witness :
    normalizeInstance "myhost".data =
      "https://".data ++ "myhost".data ++ ".service-now.com".data ∧
    normalizeInstance "https://a.b".data = "https://a.b".data ∧
    normalizeInstance "https://a.b/".data = ("https://a.b/".data).dropLast := by
  refine ⟨baseurl_normalization.2.2.1 _ (by decide) (by decide),
    baseurl_normalization.2.2.2.1 _ (by decide) (by decide) (by decide),
    baseurl_normalization.2.2.2.2.1 _ (by decide) (by decide) (by decide)⟩

end ServiceNowPy
